import Mathlib

/-!
Verification development for the Box annotation-to-artifact pipeline
(annotation parser, semantic validator, and deployment-artifact emitters).

The Go source is shallowly embedded: each Lean definition translates one
Go function.  Go strings are modelled as Lean strings (lists of code
points; all relevant comparisons are on ASCII, where Go's byte-wise
operations and Lean's code-point operations agree, and UTF-8 byte order
coincides with code-point order for lexicographic comparison).
Go time.Duration values are modelled as Int nanosecond counts.
-/

namespace Box

/-! ## Go string primitives (strings package) -/

/-- Model of Go strings.HasPrefix. -/
def strHasPfx (s p : String) : Bool :=
  p.data.isPrefixOf s.data

/-- Model of Go strings.HasSuffix. -/
def strHasSfx (s p : String) : Bool :=
  p.data.isSuffixOf s.data

/-- Model of Go strings.TrimPrefix: drop p from the front of s when present. -/
def strTrimPfx (s p : String) : String :=
  if strHasPfx s p then String.mk (s.data.drop p.data.length) else s

/-- Model of Go strings.TrimSuffix: drop p from the end of s when present. -/
def strTrimSfx (s p : String) : String :=
  if strHasSfx s p then String.mk (s.data.take (s.data.length - p.data.length)) else s

/-- ASCII whitespace as recognized by Go unicode.IsSpace (the inputs the
pipeline handles are ASCII, so the Latin-1/Unicode space cases are not
reachable). -/
def isGoSpace (c : Char) : Bool :=
  c = ' ' || c = '\t' || c = '\n' || c = '\x0b' || c = '\x0c' || c = '\r'

/-- Model of Go strings.TrimSpace. -/
def goTrimSpace (s : String) : String :=
  String.mk (((s.data.dropWhile isGoSpace).reverse.dropWhile isGoSpace).reverse)

/-- ASCII lower-casing of one character (Go strings.ToLower restricted to
ASCII, which covers every string this pipeline lower-cases). -/
def goToLowerChar (c : Char) : Char :=
  if 'A' ≤ c ∧ c ≤ 'Z' then Char.ofNat (c.toNat + 32) else c

/-- ASCII upper-casing of one character (Go strings.ToUpper restricted to ASCII). -/
def goToUpperChar (c : Char) : Char :=
  if 'a' ≤ c ∧ c ≤ 'z' then Char.ofNat (c.toNat - 32) else c

/-- Model of Go strings.ToLower. -/
def goToLower (s : String) : String :=
  String.mk (s.data.map goToLowerChar)

/-- Model of Go strings.ToUpper. -/
def goToUpper (s : String) : String :=
  String.mk (s.data.map goToUpperChar)

/-! ## toKebabCase (build package)

Go source:
```
func toKebabCase(s string) string {
    var result []rune
    for i, r := range s {
        if i > 0 && r >= 'A' && r <= 'Z' {
            result = append(result, '-')
        }
        result = append(result, r)
    }
    return strings.ToLower(string(result))
}
```
The loop index i is the byte offset of the rune; the guard i > 0 holds
exactly for every rune after the first, which is what the recursion below
tracks with a Bool flag. -/

/-- Hyphen-insertion pass of toKebabCase: insert a hyphen before each
uppercase ASCII letter that is not the first character. -/
def kebabChars (notFirst : Bool) : List Char → List Char
  | [] => []
  | c :: cs =>
    (if notFirst ∧ 'A' ≤ c ∧ c ≤ 'Z' then ['-', c] else [c]) ++ kebabChars true cs

/-- Model of Go toKebabCase: hyphenate before non-leading uppercase letters,
then lower-case the whole string. -/
def toKebabCase (s : String) : String :=
  goToLower (String.mk (kebabChars false s.data))

/-! ## Go time.Duration rendering

The validator's diagnostic messages interpolate a time.Duration with %v,
which calls Duration.String.  The model below follows Go's
time.Duration.String digit for digit (sign, unit selection, and
trailing-zero trimming of the fractional part). -/

/-- Drop trailing '0' characters (Go fmtFrac omits trailing zeros). -/
def stripTrailingZeros (l : List Char) : List Char :=
  (l.reverse.dropWhile (fun c => c = '0')).reverse

/-- Left-pad a digit list with '0' to a given width. -/
def padZeros (width : Nat) (l : List Char) : List Char :=
  List.replicate (width - l.length) '0' ++ l

/-- Model of Go time.fmtFrac: the fractional part (with leading '.', or
empty when all fraction digits are zero) of v to prec digits, and v with
those digits divided out. -/
def fmtFrac (v : Nat) (prec : Nat) : String × Nat :=
  let digits := stripTrailingZeros (padZeros prec (toString (v % 10 ^ prec)).data)
  (if digits.isEmpty then "" else String.mk ('.' :: digits), v / 10 ^ prec)

/-- Model of Go time.Duration.String on a nanosecond count. -/
def goDurationString (d : Int) : String :=
  let u := d.natAbs
  let core :=
    if u < 1000000000 then
      -- less than one second: ns / µs / ms with fractional digits
      if u = 0 then "0s"
      else if u < 1000 then toString u ++ "ns"
      else if u < 1000000 then
        let fr := fmtFrac u 3
        toString fr.2 ++ fr.1 ++ "µs"
      else
        let fr := fmtFrac u 6
        toString fr.2 ++ fr.1 ++ "ms"
    else
      let fr := fmtFrac u 9
      let secPart := toString (fr.2 % 60) ++ fr.1 ++ "s"
      let m := fr.2 / 60
      if m = 0 then secPart
      else
        let minPart := toString (m % 60) ++ "m" ++ secPart
        if m / 60 = 0 then minPart else toString (m / 60) ++ "h" ++ minPart
  if d < 0 then "-" ++ core else core

/-! ## Handler model (annotations package types)

Go time.Duration fields (Timeout, RateLimitConfig.Period) are Int
nanosecond counts.  DeploymentType and AuthType are string types in the
source and are modelled as String with the named constants below. -/

/-- One nanosecond-per-second scale factor (time.Second). -/
def nsPerSec : Int := 1000000000

def DeploymentFunction : String := "function"

def DeploymentContainer : String := "container"

def AuthRequired : String := "required"

def AuthOptional : String := "optional"

def AuthNone : String := "none"

structure Route where
  method : String
  path : String
deriving DecidableEq, Repr

structure AuthConfig where
  type : String
deriving DecidableEq, Repr

structure RateLimitConfig where
  count : Int
  periodNs : Int
  raw : String
deriving DecidableEq, Repr

structure CORSConfig where
  allowedOrigins : List String
  raw : String
deriving DecidableEq, Repr

structure Handler where
  functionName : String
  packagePath : String
  packageName : String
  filePath : String
  lineNumber : Nat
  deploymentType : String
  serviceName : String
  route : Route
  auth : AuthConfig
  rateLimit : Option RateLimitConfig
  cors : Option CORSConfig
  timeoutNs : Int
  memory : String
  concurrency : Int
deriving DecidableEq, Repr

structure ParseError where
  filePath : String
  lineNumber : Nat
  message : String
  annotation : String
deriving DecidableEq, Repr

structure AnnotationError where
  handler : String
  annotation : String
  reason : String
deriving DecidableEq, Repr

/-! ## Semantic validator (annotations/validator.go) -/

/-- Model of Validator.hasValidPathParams: brace counts must balance and
every '/'-separated segment containing a brace must be exactly of the form
a single parameter with a non-empty name. -/
def checkPathPart (part : String) : Bool :=
  if part.data.contains '{' then
    strHasPfx part "\x7b" && strHasSfx part "\x7d"
      && (strTrimPfx (strTrimSfx part "\x7d") "\x7b").data.length > 0
  else true

def hasValidPathParams (path : String) : Bool :=
  path.data.count '{' = path.data.count '}' && (path.splitOn "/").all checkPathPart

/-- Model of Validator.validatePath. -/
def validatePath (h : Handler) : List AnnotationError :=
  let path := h.route.path
  (if ¬ strHasPfx path "/" then
     [⟨h.functionName, "@wylla:path", "Path must start with '/': " ++ path⟩] else [])
  ++ (if path.data.length > 1 ∧ strHasSfx path "/" then
     [⟨h.functionName, "@wylla:path", "Path should not end with '/': " ++ path⟩] else [])
  ++ (if (path.data.contains '{' ∨ path.data.contains '}') ∧ ¬ hasValidPathParams path then
     [⟨h.functionName, "@wylla:path",
        "Invalid path parameter syntax: " ++ path ++ " (use {paramName})"⟩] else [])

/-- The fixed enum of admissible function memory values (validator.go's
validMemory map). -/
def validFunctionMemoryValues : List String :=
  ["128MB", "256MB", "512MB", "1GB", "2GB", "4GB", "8GB", "16GB"]

/-- Model of Validator.validateFunctionConfig. -/
def validateFunctionConfig (h : Handler) : List AnnotationError :=
  (if h.memory ≠ "" ∧ ¬ h.memory ∈ validFunctionMemoryValues then
     [⟨h.functionName, "@wylla:memory",
        "Invalid memory value: " ++ h.memory
          ++ " (valid: 128MB, 256MB, 512MB, 1GB, 2GB, 4GB, 8GB, 16GB)"⟩] else [])
  ++ (if h.concurrency > 0 then
     [⟨h.functionName, "@wylla:concurrency",
        "Concurrency is not applicable to Cloud Functions, only Cloud Run containers"⟩] else [])

/-- Model of Validator.validateContainerConfig. -/
def validateContainerConfig (h : Handler) : List AnnotationError :=
  (if h.concurrency > 0 ∧ (h.concurrency < 1 ∨ h.concurrency > 1000) then
     [⟨h.functionName, "@wylla:concurrency",
        "Concurrency must be between 1 and 1000, got: " ++ toString h.concurrency⟩] else [])
  ++ (if h.memory ≠ "" then
     [⟨h.functionName, "@wylla:memory",
        "Note: Memory for Cloud Run containers is typically configured at the service level, not per handler"⟩]
     else [])

/-- Model of Validator.validateRateLimit (called with handler.RateLimit
non-nil).  Period.Hours() >= 1 is exactly periodNs >= 3600 * nsPerSec: the
float64 division by 3.6e12 cannot cross the 1.0 boundary within half an
ulp for integer nanosecond counts. -/
def validateRateLimit (h : Handler) (rl : RateLimitConfig) : List AnnotationError :=
  (if rl.count ≤ 0 then
     [⟨h.functionName, "@wylla:ratelimit",
        "Rate limit count must be positive, got: " ++ toString rl.count⟩] else [])
  ++ (if rl.count > 10000 then
     [⟨h.functionName, "@wylla:ratelimit",
        "Rate limit seems very high: " ++ rl.raw ++ " (consider if this is intentional)"⟩] else [])
  ++ (if rl.count < 10 ∧ rl.periodNs ≥ 3600 * nsPerSec then
     [⟨h.functionName, "@wylla:ratelimit",
        "Rate limit seems very low: " ++ rl.raw ++ " (consider if this is intentional)"⟩] else [])

/-- One iteration of validateCORS's origin loop: wildcard origins are
skipped, any other origin must carry an http:// or https:// scheme. -/
def corsOriginErrors (h : Handler) (origin : String) : List AnnotationError :=
  if origin ≠ "*" ∧ ¬ (strHasPfx origin "http://" || strHasPfx origin "https://") then
    [⟨h.functionName, "@wylla:cors",
       "CORS origin must start with http:// or https://, got: " ++ origin⟩]
  else []

/-- Model of Validator.validateCORS (called with handler.CORS non-nil). -/
def validateCORS (h : Handler) (c : CORSConfig) : List AnnotationError :=
  if c.allowedOrigins.length = 0 then
    [⟨h.functionName, "@wylla:cors", "CORS must specify at least one origin"⟩]
  else
    (c.allowedOrigins.map (corsOriginErrors h)).flatten

/-- Model of Validator.validateTimeout (called with handler.Timeout > 0).
Timeout.Seconds() > 540 is exactly timeoutNs > 540 * nsPerSec (and
likewise for 3600 and < 5): float64 rounding of ns/1e9 cannot cross those
integer boundaries. -/
def validateTimeout (h : Handler) : List AnnotationError :=
  (if h.deploymentType = DeploymentFunction then
     (if h.timeoutNs > 540 * nsPerSec then
        [⟨h.functionName, "@wylla:timeout",
           "Cloud Function timeout cannot exceed 540s (9 minutes), got: "
             ++ goDurationString h.timeoutNs⟩] else [])
   else if h.deploymentType = DeploymentContainer then
     (if h.timeoutNs > 3600 * nsPerSec then
        [⟨h.functionName, "@wylla:timeout",
           "Cloud Run timeout cannot exceed 3600s (1 hour), got: "
             ++ goDurationString h.timeoutNs⟩] else [])
   else [])
  ++ (if h.timeoutNs < 5 * nsPerSec then
     [⟨h.functionName, "@wylla:timeout",
        "Timeout is very short: " ++ goDurationString h.timeoutNs
          ++ " (consider if this is intentional)"⟩] else [])

/-- The missing-deployment-type diagnostic of validateHandler. -/
def missingTypeError (h : Handler) : AnnotationError :=
  ⟨h.functionName, "@wylla:function or @wylla:container",
     "Missing deployment type annotation. Add @wylla:function or @wylla:container"⟩

/-- The missing-route diagnostic of validateHandler. -/
def missingPathError (h : Handler) : AnnotationError :=
  ⟨h.functionName, "@wylla:path", "Missing path annotation. Add @wylla:path METHOD /path"⟩

/-- Model of Validator.validateHandler. -/
def validateHandler (h : Handler) : List AnnotationError :=
  (if h.deploymentType = "" then [missingTypeError h] else [])
  ++ (if h.route.method = "" ∨ h.route.path = "" then [missingPathError h] else [])
  ++ (if h.route.path ≠ "" then validatePath h else [])
  ++ (if h.deploymentType = DeploymentFunction then validateFunctionConfig h
      else if h.deploymentType = DeploymentContainer then validateContainerConfig h
      else [])
  ++ (match h.rateLimit with
      | some rl => validateRateLimit h rl
      | none => [])
  ++ (match h.cors with
      | some c => validateCORS h c
      | none => [])
  ++ (if h.timeoutNs > 0 then validateTimeout h else [])

/-- Model of Validator.Validate: per-handler diagnostics, concatenated in
handler order. -/
def Validate (handlers : List Handler) : List AnnotationError :=
  (handlers.map validateHandler).flatten

/-- The "METHOD PATH" key ValidateUniquePaths uses
(fmt.Sprintf of method, a space, and path). -/
def routeKey (h : Handler) : String :=
  h.route.method ++ " " ++ h.route.path

/-- The duplicate-route diagnostic of ValidateUniquePaths. -/
def dupRouteError (h : Handler) (key existing : String) : AnnotationError :=
  ⟨h.functionName, "@wylla:path",
     "Duplicate route: " ++ key ++ " already defined in handler " ++ existing⟩

/-- Loop of ValidateUniquePaths; seen maps a route key to the function
name of the first handler that claimed it (the Go code only inserts a key
on first sight, so later collisions keep reporting the first claimant). -/
def uniquePathsLoop : List Handler → List (String × String) → List AnnotationError
  | [], _ => []
  | h :: rest, seen =>
    match seen.lookup (routeKey h) with
    | some existing => dupRouteError h (routeKey h) existing :: uniquePathsLoop rest seen
    | none => uniquePathsLoop rest ((routeKey h, h.functionName) :: seen)

/-- Model of Validator.ValidateUniquePaths. -/
def ValidateUniquePaths (handlers : List Handler) : List AnnotationError :=
  uniquePathsLoop handlers []

/-! ## Annotation parser (annotations/parser.go)

parseAnnotations processes the comment block attached to one declaration.
The surrounding file/directory walking (go/ast traversal, file I/O) is not
modelled; the comment block arrives as the list of raw comment-line texts
of the declaration's doc comment group. -/

/-- Go fmt.Sscanf "%d" digit scanning: the longest digit run and the rest
of the input; fails when no digit is present. -/
def scanDigits (l : List Char) : Option (Nat × List Char) :=
  let ds := l.takeWhile Char.isDigit
  if ds.isEmpty then none
  else some (ds.foldl (fun acc c => acc * 10 + (c.toNat - 48)) 0, l.drop ds.length)

/-- Go fmt.Sscanf "%d": skip leading whitespace, optional sign, digits;
returns the integer and the unconsumed input. -/
def scanIntPfx (l : List Char) : Option (Int × List Char) :=
  let l1 := l.dropWhile isGoSpace
  match l1 with
  | '-' :: rest => (scanDigits rest).map (fun p => (-(p.1 : Int), p.2))
  | '+' :: rest => (scanDigits rest).map (fun p => ((p.1 : Int), p.2))
  | _ => (scanDigits l1).map (fun p => ((p.1 : Int), p.2))

/-- Model of fmt.Sscanf(value, "%d", &x): succeeds when an integer can be
scanned; trailing input is not an error. -/
def sscanfInt (s : String) : Option Int :=
  (scanIntPfx s.data).map (fun p => p.1)

/-- Model of fmt.Sscanf(value, "%d%s"): an integer followed by a
non-empty whitespace-delimited token. -/
def sscanfIntStr (s : String) : Option (Int × String) :=
  match scanIntPfx s.data with
  | none => none
  | some (n, rest) =>
    let tok := (rest.dropWhile isGoSpace).takeWhile (fun c => ! isGoSpace c)
    if tok.isEmpty then none else some (n, String.mk tok)

/-- The HTTP methods parsePath accepts (parser.go's validMethods map). -/
def validMethods : List String :=
  ["GET", "POST", "PUT", "DELETE", "PATCH", "OPTIONS", "HEAD"]

/-- Model of Parser.parsePath: "METHOD /path", method upper-cased and
checked against validMethods, path must start with '/'. -/
def parsePath (value : String) : Except String Route :=
  let pre := value.data.takeWhile (fun c => c ≠ ' ')
  let rest := value.data.drop pre.length
  match rest with
  | [] => .error ("path must be in format 'METHOD /path', got: " ++ value)
  | _ :: after =>
    let method := goToUpper (goTrimSpace (String.mk pre))
    let path := goTrimSpace (String.mk after)
    if ¬ validMethods.contains method then .error ("invalid HTTP method: " ++ method)
    else if ¬ strHasPfx path "/" then .error ("path must start with /, got: " ++ path)
    else .ok ⟨method, path⟩

/-- Model of Parser.parseAuth. -/
def parseAuth (value : String) : Except String String :=
  let v := goToLower (goTrimSpace value)
  if v = "required" then .ok AuthRequired
  else if v = "optional" then .ok AuthOptional
  else if v = "none" then .ok AuthNone
  else .error ("auth must be 'required', 'optional', or 'none', got: " ++ v)

/-- Model of Parser.parseRateLimit: "count/period"; the period becomes a
duration of that many seconds (parseDuration in the source). -/
def parseRateLimit (value : String) : Except String RateLimitConfig :=
  match value.splitOn "/" with
  | [p0, p1] =>
    match sscanfInt p0 with
    | none => .error ("invalid count in ratelimit: " ++ p0)
    | some count =>
      let period := goToLower (goTrimSpace p1)
      let dur : Option Int :=
        if period = "second" ∨ period = "sec" ∨ period = "s" then some 1
        else if period = "minute" ∨ period = "min" ∨ period = "m" then some 60
        else if period = "hour" ∨ period = "hr" ∨ period = "h" then some 3600
        else if period = "day" ∨ period = "d" then some 86400
        else none
      match dur with
      | none => .error ("invalid period in ratelimit: " ++ period
          ++ " (use second/minute/hour/day)")
      | some d => .ok ⟨count, d * nsPerSec, value⟩
  | _ => .error ("ratelimit must be in format 'count/period', got: " ++ value)

/-- Model of Parser.parseCORS. -/
def parseCORS (value : String) : Except String CORSConfig :=
  if ¬ strHasPfx value "origins=" then
    .error ("cors must be in format 'origins=*' or 'origins=url1,url2', got: " ++ value)
  else
    let originsStr := strTrimPfx value "origins="
    let origins := if originsStr = "*" then ["*"]
      else (originsStr.splitOn ",").map goTrimSpace
    .ok ⟨origins, value⟩

/-- Model of Parser.parseTimeout: Sscanf "%d%s" then a unit in s/m/h
(with long spellings); produces nanoseconds. -/
def parseTimeout (value : String) : Except String Int :=
  match sscanfIntStr value with
  | none => .error ("invalid timeout format: " ++ value ++ " (use format like '30s', '5m', '1h')")
  | some (num, unit) =>
    let mult : Option Int :=
      if unit = "s" ∨ unit = "sec" ∨ unit = "second" then some 1
      else if unit = "m" ∨ unit = "min" ∨ unit = "minute" then some 60
      else if unit = "h" ∨ unit = "hr" ∨ unit = "hour" then some 3600
      else none
    match mult with
    | none => .error ("invalid timeout unit: " ++ unit ++ " (use s/m/h)")
    | some m => .ok (num * m * nsPerSec)

/-- Model of Parser.parseContainerService: "service=name" with a non-empty
trimmed name. -/
def parseContainerService (value : String) : Except String String :=
  if ¬ strHasPfx value "service=" then
    .error ("container parameter must be in format 'service=name', got: " ++ value)
  else
    let serviceName := goTrimSpace (strTrimPfx value "service=")
    if serviceName = "" then .error "service name cannot be empty"
    else .ok serviceName

/-- Comment-marker stripping applied to each comment line of a block
(TrimSpace, strip // or the edges of a block comment, TrimSpace again). -/
def stripCommentMarkers (comment : String) : String :=
  goTrimSpace (strTrimSfx (strTrimPfx (strTrimPfx (goTrimSpace comment) "//") "/*") "*/")

/-- A comment line that carries a Box annotation after marker stripping. -/
def isBoxLine (comment : String) : Bool :=
  strHasPfx (stripCommentMarkers comment) "@box:"

/-- The zero-valued Handler parseAnnotations starts from (auth defaults to
none; everything else is the Go zero value). -/
def initHandler (funcName packageName filePath : String) (lineNumber : Nat) : Handler :=
  { functionName := funcName, packagePath := "", packageName := packageName,
    filePath := filePath, lineNumber := lineNumber, deploymentType := "",
    serviceName := "", route := ⟨"", ""⟩, auth := ⟨AuthNone⟩, rateLimit := none,
    cors := none, timeoutNs := 0, memory := "", concurrency := 0 }

/-- Loop state of parseAnnotations: the handler being filled in, the
collected ParseErrors, and the hasBoxAnnotation flag. -/
structure ParseState where
  handler : Handler
  errors : List ParseError
  hasBox : Bool
deriving DecidableEq, Repr

/-- strings.Index(t, " ") > 0 splitting of annotation type and value: no
split when the string has no space or starts with one. -/
def splitTypeValue (t : String) : String × String :=
  let pre := t.data.takeWhile (fun c => c ≠ ' ')
  let rest := t.data.drop pre.length
  match rest with
  | [] => (t, "")
  | _ :: after =>
    if pre.length > 0 then (String.mk pre, goTrimSpace (String.mk after))
    else (t, "")

/-- The switch over the annotation type in parseAnnotations. -/
def processAnnotation (filePath : String) (lineNumber : Nat) (text : String)
    (annotationType annotationValue : String) (st : ParseState) : ParseState :=
  if annotationType = "function" then
    { st with handler := { st.handler with deploymentType := DeploymentFunction } }
  else if annotationType = "container" then
    let st := { st with handler := { st.handler with deploymentType := DeploymentContainer } }
    if annotationValue ≠ "" then
      match parseContainerService annotationValue with
      | .ok name => { st with handler := { st.handler with serviceName := name } }
      | .error msg => { st with errors := st.errors
          ++ [⟨filePath, lineNumber, "Invalid container annotation: " ++ msg, text⟩] }
    else st
  else if annotationType = "path" then
    match parsePath annotationValue with
    | .ok r => { st with handler := { st.handler with route := r } }
    | .error msg => { st with errors := st.errors
        ++ [⟨filePath, lineNumber, "Invalid path annotation: " ++ msg, text⟩] }
  else if annotationType = "auth" then
    match parseAuth annotationValue with
    | .ok a => { st with handler := { st.handler with auth := ⟨a⟩ } }
    | .error msg => { st with errors := st.errors
        ++ [⟨filePath, lineNumber, "Invalid auth annotation: " ++ msg, text⟩] }
  else if annotationType = "ratelimit" then
    match parseRateLimit annotationValue with
    | .ok rl => { st with handler := { st.handler with rateLimit := some rl } }
    | .error msg => { st with errors := st.errors
        ++ [⟨filePath, lineNumber, "Invalid ratelimit annotation: " ++ msg, text⟩] }
  else if annotationType = "cors" then
    match parseCORS annotationValue with
    | .ok c => { st with handler := { st.handler with cors := some c } }
    | .error msg => { st with errors := st.errors
        ++ [⟨filePath, lineNumber, "Invalid cors annotation: " ++ msg, text⟩] }
  else if annotationType = "timeout" then
    match parseTimeout annotationValue with
    | .ok t => { st with handler := { st.handler with timeoutNs := t } }
    | .error msg => { st with errors := st.errors
        ++ [⟨filePath, lineNumber, "Invalid timeout annotation: " ++ msg, text⟩] }
  else if annotationType = "memory" then
    { st with handler := { st.handler with memory := annotationValue } }
  else if annotationType = "concurrency" then
    match sscanfInt annotationValue with
    | none => { st with errors := st.errors
        ++ [⟨filePath, lineNumber, "Invalid concurrency value: " ++ annotationValue, text⟩] }
    | some c => { st with handler := { st.handler with concurrency := c } }
  else
    { st with errors := st.errors
        ++ [⟨filePath, lineNumber, "Unknown annotation type: " ++ annotationType, text⟩] }

/-- One iteration of parseAnnotations's comment loop: strip markers, skip
non-@box: lines, otherwise set hasBoxAnnotation and dispatch on the
annotation type. -/
def processBoxText (filePath : String) (lineNumber : Nat) (text : String)
    (st : ParseState) : ParseState :=
  match text.data.drop (text.data.takeWhile (fun c => c ≠ ':')).length with
  | [] =>
    { st with errors := st.errors
        ++ [⟨filePath, lineNumber, "Invalid annotation format: " ++ text, text⟩] }
  | _ :: after =>
    let tv := splitTypeValue (goTrimSpace (String.mk after))
    processAnnotation filePath lineNumber text tv.1 tv.2 st

def processLine (filePath : String) (lineNumber : Nat) (st : ParseState)
    (comment : String) : ParseState :=
  let text := stripCommentMarkers comment
  if ¬ strHasPfx text "@box:" then st
  else processBoxText filePath lineNumber text { st with hasBox := true }

/-- Model of Parser.parseAnnotations: fold the comment block; return the
Handler only when some @box: annotation was seen, else nil, along with the
collected ParseErrors. -/
def parseAnnotations (comments : List String) (funcName packageName filePath : String)
    (lineNumber : Nat) : Option Handler × List ParseError :=
  let st := comments.foldl (processLine filePath lineNumber)
    ⟨initHandler funcName packageName filePath lineNumber, [], false⟩
  if st.hasBox then (some st.handler, st.errors) else (none, st.errors)

/-- A memory diagnostic: a validator record attributed to the @wylla:memory
annotation. -/
def isMemoryDiag (e : AnnotationError) : Bool :=
  e.annotation == "@wylla:memory"

/-- A timeout-ceiling diagnostic: attributed to @wylla:timeout with a
platform-maximum reason ("Cloud Function timeout cannot exceed ..." or
"Cloud Run timeout cannot exceed ..."). -/
def isCeilingTimeoutDiag (e : AnnotationError) : Bool :=
  e.annotation == "@wylla:timeout"
    && (strHasPfx e.reason "Cloud Function timeout" || strHasPfx e.reason "Cloud Run timeout")

/-- A short-timeout advisory diagnostic: attributed to @wylla:timeout with
the "Timeout is very short" reason. -/
def isShortTimeoutDiag (e : AnnotationError) : Bool :=
  e.annotation == "@wylla:timeout" && strHasPfx e.reason "Timeout is very short"

/-- Route entirely unset: both method and path empty (the zero value the
parser leaves when no @box:path annotation was recognized). -/
def hasEmptyRoute (h : Handler) : Bool :=
  h.route.method == "" && h.route.path == ""

/-! ## Container emitter grouping (build/container.go) -/

structure ServiceGroup where
  name : String
  handlers : List Handler
deriving DecidableEq, Repr

/-- The grouping key ContainerGenerator.groupHandlers uses: the handler's
package name, or "default" when it is empty.  The handler's explicit
ServiceName field is not consulted (the source comments this as a future
field and uses the package name "for now"). -/
def serviceNameOf (h : Handler) : String :=
  if h.packageName = "" then "default" else h.packageName

/-- Append a handler to the group of the given name, creating the group at
the end when absent (the map-entry append of the Go code). -/
def addToGroups : List ServiceGroup → String → Handler → List ServiceGroup
  | [], name, h => [⟨name, [h]⟩]
  | g :: rest, name, h =>
    if g.name = name then ⟨g.name, g.handlers ++ [h]⟩ :: rest
    else g :: addToGroups rest name h

/-- Model of ContainerGenerator.groupHandlers.  Go accumulates a
map[string][]Handler and converts it to a slice in unspecified map
iteration order; the model fixes first-insertion key order, which yields
the same set of groups with the same per-group handler order. -/
def groupHandlers (handlers : List Handler) : List ServiceGroup :=
  handlers.foldl (fun gs h => addToGroups gs (serviceNameOf h) h) []

/-- The container-service directory names the container emitter creates:
one kebab-cased directory per service group (generateService). -/
def containerServiceDirs (handlers : List Handler) : List String :=
  (groupHandlers handlers).map (fun g => toKebabCase g.name)

/-- Follows the spec's words, for comparison with the code: the grouping
key is the explicit service-group name when set, else the package name. -/
def specGroupKey (h : Handler) : String :=
  if h.serviceName ≠ "" then h.serviceName else h.packageName

/-- Follows the spec's words, for comparison with groupHandlers (which is
the code's behavior): grouping keyed by specGroupKey. -/
def groupHandlersSpec (handlers : List Handler) : List ServiceGroup :=
  handlers.foldl (fun gs h => addToGroups gs (specGroupKey h) h) []

/-! ## Gateway emitter (GatewayGenerator) -/

/-- Model of GatewayGenerator.getBackendURL: Cloud Function URL for
function handlers, Cloud Run URL (kebab-cased package name as the service
name) for container handlers, empty otherwise. -/
def getBackendURL (region projectID : String) (h : Handler) : String :=
  if h.deploymentType = DeploymentFunction then
    "https://" ++ region ++ "-" ++ projectID ++ ".cloudfunctions.net/"
      ++ toKebabCase h.functionName
  else if h.deploymentType = DeploymentContainer then
    "https://" ++ toKebabCase h.packageName ++ "-" ++ region ++ ".run.app"
  else ""

/-- Follows the spec's words, for comparison with getBackendURL: the
container backend uses the kebab-cased group name (explicit service-group
name if set, else package name). -/
def getBackendURLSpec (region projectID : String) (h : Handler) : String :=
  if h.deploymentType = DeploymentFunction then
    "https://" ++ region ++ "-" ++ projectID ++ ".cloudfunctions.net/"
      ++ toKebabCase h.functionName
  else if h.deploymentType = DeploymentContainer then
    "https://" ++ toKebabCase (specGroupKey h) ++ "-" ++ region ++ ".run.app"
  else ""

/-- The per-operation payload groupHandlersByPath records (operation id,
summary, tags).  The security/parameter/response/extension sub-documents
are built per handler downstream and do not affect the ordering claims. -/
structure OpenAPIOperation where
  operationID : String
  summary : String
  tags : List String
deriving DecidableEq, Repr

structure OpenAPIPath where
  path : String
  operations : List (String × OpenAPIOperation)
deriving DecidableEq, Repr

/-- Ordering of path entries used by groupHandlersByPath's sort (Go:
paths[i].Path < paths[j].Path; entries have distinct paths, so sorting by
≤ and by < coincide and the result is unique regardless of input order). -/
def pathLE (a b : OpenAPIPath) : Prop :=
  a.path ≤ b.path

instance : DecidableRel pathLE := fun a b =>
  inferInstanceAs (Decidable (a.path ≤ b.path))

instance : IsTotal OpenAPIPath pathLE :=
  ⟨fun a b => le_total a.path b.path⟩

instance : IsTrans OpenAPIPath pathLE :=
  ⟨fun _ _ _ hab hbc => le_trans hab hbc⟩

def opFor (h : Handler) : OpenAPIOperation :=
  ⟨h.functionName, h.route.method ++ " " ++ h.route.path, [h.packageName]⟩

/-- Map-style assignment Operations[method] = op. -/
def upsertOp : List (String × OpenAPIOperation) → String → OpenAPIOperation →
    List (String × OpenAPIOperation)
  | [], m, op => [(m, op)]
  | (k, v) :: rest, m, op =>
    if k = m then (k, op) :: rest else (k, v) :: upsertOp rest m op

/-- One loop iteration of groupHandlersByPath: find or create the entry
for the handler's path, then assign its lower-cased method operation. -/
def insertHandlerByPath (ps : List OpenAPIPath) (h : Handler) : List OpenAPIPath :=
  if ps.any (fun p => p.path == h.route.path) then
    ps.map (fun p =>
      if p.path = h.route.path then
        ⟨p.path, upsertOp p.operations (goToLower h.route.method) (opFor h)⟩
      else p)
  else ps ++ [⟨h.route.path, [(goToLower h.route.method, opFor h)]⟩]

/-- Model of GatewayGenerator.groupHandlersByPath: build one entry per
distinct route path, then sort by path (sort.Slice on Path <). -/
def groupHandlersByPath (handlers : List Handler) : List OpenAPIPath :=
  List.insertionSort pathLE (handlers.foldl insertHandlerByPath [])

/-- Model of GatewayGenerator.extractTags: the distinct non-empty package
names (Go: a set-map, modelled in first-occurrence order), sorted
(sort.Strings). -/
def extractTags (handlers : List Handler) : List String :=
  List.insertionSort (fun a b => a ≤ b)
    (handlers.foldl
      (fun acc h =>
        if h.packageName ≠ "" ∧ ¬ acc.contains h.packageName then acc ++ [h.packageName]
        else acc)
      [])

/-! ## Build orchestrator (Generator.Generate)

The emitters are modelled at filesystem-path granularity: each emitter
yields the ordered list of directories/files it creates, and Generate
concatenates them behind the non-empty-input guards of the source.  I/O
is assumed to succeed (failures abort the Go code with a wrapped error;
nothing else produces an error), so the modelled Generate always returns
ok with the written paths. -/

structure Config where
  outputDir : String
  moduleName : String
  projectID : String
  region : String
  environment : String
  cleanBuildDir : Bool
deriving DecidableEq, Repr

def filterFunctionHandlers (handlers : List Handler) : List Handler :=
  handlers.filter (fun h => h.deploymentType == DeploymentFunction)

def filterContainerHandlers (handlers : List Handler) : List Handler :=
  handlers.filter (fun h => h.deploymentType == DeploymentContainer)

/-- filepath.Join restricted to the non-empty, separator-free components
this pipeline joins. -/
def pathJoin (a b : String) : String :=
  a ++ "/" ++ b

/-- Files FunctionGenerator.generateFunction writes for one handler. -/
def functionPackageWrites (dir : String) (h : Handler) : List String :=
  let d := pathJoin dir (toKebabCase h.functionName)
  [d, pathJoin d "main.go", pathJoin d "go.mod", pathJoin d "function.yaml",
   pathJoin d "deploy.sh"]

/-- Model of FunctionGenerator.Generate (paths written). -/
def functionGeneratorWrites (dir : String) (handlers : List Handler) : List String :=
  if handlers.length = 0 then []
  else dir :: (handlers.map (functionPackageWrites dir)).flatten

/-- Files ContainerGenerator.generateService writes for one group. -/
def containerServiceWrites (dir : String) (g : ServiceGroup) : List String :=
  let d := pathJoin dir (toKebabCase g.name)
  [d, pathJoin d "main.go", pathJoin d "Dockerfile", pathJoin d "cloudbuild.yaml",
   pathJoin d "deploy.sh"]

/-- Model of ContainerGenerator.Generate (paths written). -/
def containerGeneratorWrites (dir : String) (handlers : List Handler) : List String :=
  if handlers.length = 0 then []
  else dir :: ((groupHandlers handlers).map (containerServiceWrites dir)).flatten

/-- Model of GatewayGenerator.Generate (paths written). -/
def gatewayGeneratorWrites (dir : String) (handlers : List Handler) : List String :=
  if handlers.length = 0 then []
  else [dir, pathJoin dir "openapi.yaml", pathJoin dir "gateway-config.yaml",
        pathJoin dir "deploy.sh"]

/-- Model of TerraformGenerator.Generate (paths written): module
directories, the four modules' files, root files, per-environment tfvars,
.gitignore and README. -/
def terraformGeneratorWrites (dir : String) (handlers : List Handler) : List String :=
  if handlers.length = 0 then []
  else
    dir ::
    (["modules/cloud-functions", "modules/cloud-run", "modules/api-gateway",
      "modules/networking", "environments",
      "modules/cloud-functions/main.tf", "modules/cloud-functions/variables.tf",
      "modules/cloud-functions/outputs.tf",
      "modules/cloud-run/main.tf", "modules/cloud-run/variables.tf",
      "modules/cloud-run/outputs.tf",
      "modules/api-gateway/main.tf", "modules/api-gateway/variables.tf",
      "modules/api-gateway/outputs.tf",
      "modules/networking/main.tf", "modules/networking/variables.tf",
      "modules/networking/outputs.tf",
      "main.tf", "variables.tf", "outputs.tf",
      "environments/dev.tfvars", "environments/staging.tfvars",
      "environments/production.tfvars",
      ".gitignore", "README.md"].map (pathJoin dir))

/-- Model of Generator.Generate: (optionally clean,) create the output
root, then run the four emitters behind their non-empty-input guards, in
source order.  Returns the ordered list of paths written. -/
def Generate (cfg : Config) (handlers : List Handler) : Except String (List String) :=
  let fh := filterFunctionHandlers handlers
  let ch := filterContainerHandlers handlers
  .ok ([cfg.outputDir]
    ++ (if fh.length > 0 then
          functionGeneratorWrites (pathJoin cfg.outputDir "functions") fh else [])
    ++ (if ch.length > 0 then
          containerGeneratorWrites (pathJoin cfg.outputDir "containers") ch else [])
    ++ (if handlers.length > 0 then
          gatewayGeneratorWrites (pathJoin cfg.outputDir "gateway") handlers else [])
    ++ (if handlers.length > 0 then
          terraformGeneratorWrites (pathJoin cfg.outputDir "terraform") handlers else []))

end Box

/-! ## Claim theorems -/

open Box

/-! ### Helper lemmas on the uniqueness pass -/

theorem routeKey_eq_space_iff (h : Handler) :
    routeKey h = " " ↔ (h.route.method = "" ∧ h.route.path = "") := by
  constructor
  · intro heq
    have hd : (routeKey h).data = [' '] := by rw [heq]
    unfold routeKey at hd
    rw [String.data_append, String.data_append] at hd
    have hlen : h.route.method.length + (h.route.path.length + 1) = 1 := by
      simpa using congrArg List.length hd
    have hm : h.route.method.data.length = 0 := by
      have : h.route.method.length = 0 := by omega
      exact this
    have hp : h.route.path.data.length = 0 := by
      have : h.route.path.length = 0 := by omega
      exact this
    exact ⟨String.ext (by rw [List.length_eq_zero.mp hm]),
           String.ext (by rw [List.length_eq_zero.mp hp])⟩
  · intro hmp
    unfold routeKey
    rw [hmp.1, hmp.2]
    rfl

theorem hasEmptyRoute_iff_routeKey (h : Handler) :
    hasEmptyRoute h = true ↔ routeKey h = " " := by
  rw [routeKey_eq_space_iff]
  simp [hasEmptyRoute]

/-- Once a key is in seen, every later handler with that key collides and
names the recorded first claimant. -/
theorem uniquePathsLoop_all_same (k n : String) :
    ∀ (rest : List Handler), (∀ x ∈ rest, routeKey x = k) →
      uniquePathsLoop rest [(k, n)] = rest.map (fun x => dupRouteError x k n) := by
  intro rest
  induction rest with
  | nil => intro _; rfl
  | cons x xs ih =>
    intro hall
    have hx : routeKey x = k := hall x (by simp)
    have hxs : ∀ y ∈ xs, routeKey y = k := fun y hy => hall y (by simp [hy])
    have hstep : uniquePathsLoop (x :: xs) [(k, n)]
        = dupRouteError x k n :: uniquePathsLoop xs [(k, n)] := by
      conv_lhs => unfold uniquePathsLoop
      rw [hx]
      simp [List.lookup]
    rw [hstep, ih hxs, List.map_cons]

/-- C4: for a handler list whose members all share one route, the global
uniqueness pass ValidateUniquePaths reports exactly one duplicate-route
diagnostic per handler after the first, each attributed to that later
handler and naming the first-declared handler in its message; the first
handler receives no diagnostic.  The two-handler instance (two GET /x
handlers yield exactly one error, on the later one, naming the earlier
one) is the witness below. -/
theorem C4_duplicate_routes (h : Handler) (rest : List Handler)
    (hall : ∀ x ∈ rest, x.route = h.route) :
    ValidateUniquePaths (h :: rest)
        = rest.map (fun x => dupRouteError x (routeKey h) h.functionName)
      ∧ (ValidateUniquePaths (h :: rest)).length = rest.length := by
  have hkey : ∀ x ∈ rest, routeKey x = routeKey h := by
    intro x hx
    unfold routeKey
    rw [hall x hx]
  have hmain : ValidateUniquePaths (h :: rest)
      = rest.map (fun x => dupRouteError x (routeKey h) h.functionName) := by
    show uniquePathsLoop rest [(routeKey h, h.functionName)] = _
    exact uniquePathsLoop_all_same (routeKey h) h.functionName rest hkey
  exact ⟨hmain, by rw [hmain]; simp⟩

/-- Once the " " key (empty method, space, empty path) is recorded in
seen with first claimant n, every later route-less handler is reported as
a duplicate of n. -/
theorem uniquePathsLoop_space_mem (n : String) :
    ∀ (hs : List Handler) (seen : List (String × String)),
      seen.lookup " " = some n →
      ∀ e ∈ hs, routeKey e = " " → dupRouteError e " " n ∈ uniquePathsLoop hs seen := by
  intro hs
  induction hs with
  | nil => intro seen _ e he; simp at he
  | cons x xs ih =>
    intro seen hseen e he hkey
    rcases List.mem_cons.mp he with rfl | hmem
    · have hstep : uniquePathsLoop (e :: xs) seen
          = dupRouteError e " " n :: uniquePathsLoop xs seen := by
        conv_lhs => unfold uniquePathsLoop
        rw [hkey, hseen]
      rw [hstep]
      exact List.mem_cons_self _ _
    · by_cases hx : (seen.lookup (routeKey x)).isSome
      · obtain ⟨ex, hex⟩ := Option.isSome_iff_exists.mp hx
        have hstep : uniquePathsLoop (x :: xs) seen
            = dupRouteError x (routeKey x) ex :: uniquePathsLoop xs seen := by
          conv_lhs => unfold uniquePathsLoop
          rw [hex]
        rw [hstep]
        exact List.mem_cons_of_mem _ (ih seen hseen e hmem hkey)
      · have hnone : seen.lookup (routeKey x) = none := Option.not_isSome_iff_eq_none.mp hx
        have hstep : uniquePathsLoop (x :: xs) seen
            = uniquePathsLoop xs ((routeKey x, x.functionName) :: seen) := by
          conv_lhs => unfold uniquePathsLoop
          rw [hnone]
        have hne : routeKey x ≠ " " := by
          intro hcontra
          rw [hcontra, hseen] at hnone
          exact Option.noConfusion hnone
        have hseen2 : (((routeKey x, x.functionName) :: seen).lookup " ") = some n := by
          simp only [List.lookup]
          have : (" " == routeKey x) = false := by
            simp [BEq.beq]
            intro hcontra
            exact hne hcontra.symm
          rw [this]
          exact hseen
        rw [hstep]
        exact ih _ hseen2 e hmem hkey

/-- If the " " key is not yet in seen and the first route-less handler of
hs is e0, then every later route-less handler of hs is reported as a
duplicate of e0. -/
theorem uniquePathsLoop_space_first :
    ∀ (hs : List Handler) (seen : List (String × String)),
      seen.lookup " " = none →
      ∀ (e0 : Handler) (rest : List Handler),
        hs.filter hasEmptyRoute = e0 :: rest →
        ∀ e ∈ rest, dupRouteError e " " e0.functionName ∈ uniquePathsLoop hs seen := by
  intro hs
  induction hs with
  | nil => intro seen _ e0 rest hf; simp at hf
  | cons x xs ih =>
    intro seen hseen e0 rest hf e he
    by_cases hx : hasEmptyRoute x = true
    · have hkey : routeKey x = " " := (hasEmptyRoute_iff_routeKey x).mp hx
      rw [List.filter_cons_of_pos hx] at hf
      obtain ⟨rfl, hrest⟩ : x = e0 ∧ xs.filter hasEmptyRoute = rest := by
        exact ⟨(List.cons.injEq _ _ _ _ ▸ hf).1, (List.cons.injEq _ _ _ _ ▸ hf).2⟩
      have hnone : seen.lookup (routeKey x) = none := by rw [hkey]; exact hseen
      have hstep : uniquePathsLoop (x :: xs) seen
          = uniquePathsLoop xs ((routeKey x, x.functionName) :: seen) := by
        conv_lhs => unfold uniquePathsLoop
        rw [hnone]
      have hseen2 : (((routeKey x, x.functionName) :: seen).lookup " ") = some x.functionName := by
        simp only [List.lookup, hkey]
        simp
      have hekey : routeKey e = " " := by
        have hee : e ∈ xs.filter hasEmptyRoute := by rw [hrest]; exact he
        exact (hasEmptyRoute_iff_routeKey e).mp (List.of_mem_filter hee)
      rw [hstep]
      exact uniquePathsLoop_space_mem x.functionName xs _ hseen2 e
        (List.mem_of_mem_filter (hrest ▸ he)) hekey
    · have hxf : hasEmptyRoute x = false := Bool.not_eq_true _ ▸ (by simpa using hx)
      rw [List.filter_cons_of_neg (by simp [hxf])] at hf
      have hne : routeKey x ≠ " " := by
        intro hcontra
        exact hx ((hasEmptyRoute_iff_routeKey x).mpr hcontra)
      cases hlk : seen.lookup (routeKey x) with
      | some ex =>
        have hstep : uniquePathsLoop (x :: xs) seen
            = dupRouteError x (routeKey x) ex :: uniquePathsLoop xs seen := by
          conv_lhs => unfold uniquePathsLoop
          rw [hlk]
        rw [hstep]
        exact List.mem_cons_of_mem _ (ih seen hseen e0 rest hf e he)
      | none =>
        have hstep : uniquePathsLoop (x :: xs) seen
            = uniquePathsLoop xs ((routeKey x, x.functionName) :: seen) := by
          conv_lhs => unfold uniquePathsLoop
          rw [hlk]
        have hseen2 : (((routeKey x, x.functionName) :: seen).lookup " ") = none := by
          simp only [List.lookup]
          have : (" " == routeKey x) = false := by
            simp [BEq.beq]
            intro hcontra
            exact hne hcontra.symm
          rw [this]
          exact hseen
        rw [hstep]
        exact ih _ hseen2 e0 rest hf e he

/-- C10: the global uniqueness pass does not exempt handlers lacking a
route.  It keys on the concatenation "METHOD PATH", so the key of every
route-less handler (empty method and empty path) is the single space " ";
for every handler list whose route-less members are e0 followed by rest,
each member of rest is reported as a duplicate route of e0, in addition
to the separate missing-route diagnostic the per-handler pass gives it. -/
theorem C10_empty_routes_collide (hs : List Handler) (e0 : Handler) (rest : List Handler)
    (hf : hs.filter hasEmptyRoute = e0 :: rest) :
    (∀ e ∈ rest, dupRouteError e " " e0.functionName ∈ ValidateUniquePaths hs)
    ∧ (∀ e ∈ rest, missingPathError e ∈ validateHandler e) := by
  constructor
  · intro e he
    exact uniquePathsLoop_space_first hs [] rfl e0 rest hf e he
  · intro e he
    have hee : e ∈ hs.filter hasEmptyRoute := by rw [hf]; simp [he]
    have hem : e.route.method = "" ∧ e.route.path = "" := by
      have := List.of_mem_filter hee
      simpa [hasEmptyRoute] using this
    unfold validateHandler
    have : (if e.route.method = "" ∨ e.route.path = "" then [missingPathError e] else [])
        = [missingPathError e] := by
      rw [if_pos (Or.inl hem.1)]
    simp [this]

/-- Witness for C10: two handlers E1, E2 with entirely unset routes; E2 is
reported as a duplicate route (key " ") of E1, and E2 also receives the
missing-route diagnostic. -/
theorem C10_witness :
    dupRouteError
        { functionName := "E2", packagePath := "", packageName := "pkg", filePath := "b.go",
          lineNumber := 2, deploymentType := "function", serviceName := "",
          route := ⟨"", ""⟩, auth := ⟨"none"⟩, rateLimit := none, cors := none,
          timeoutNs := 0, memory := "", concurrency := 0 }
        " " "E1"
      ∈ ValidateUniquePaths
        [{ functionName := "E1", packagePath := "", packageName := "pkg", filePath := "a.go",
           lineNumber := 1, deploymentType := "function", serviceName := "",
           route := ⟨"", ""⟩, auth := ⟨"none"⟩, rateLimit := none, cors := none,
           timeoutNs := 0, memory := "", concurrency := 0 },
         { functionName := "E2", packagePath := "", packageName := "pkg", filePath := "b.go",
           lineNumber := 2, deploymentType := "function", serviceName := "",
           route := ⟨"", ""⟩, auth := ⟨"none"⟩, rateLimit := none, cors := none,
           timeoutNs := 0, memory := "", concurrency := 0 }]
    ∧ missingPathError
        { functionName := "E2", packagePath := "", packageName := "pkg", filePath := "b.go",
          lineNumber := 2, deploymentType := "function", serviceName := "",
          route := ⟨"", ""⟩, auth := ⟨"none"⟩, rateLimit := none, cors := none,
          timeoutNs := 0, memory := "", concurrency := 0 }
      ∈ validateHandler
        { functionName := "E2", packagePath := "", packageName := "pkg", filePath := "b.go",
          lineNumber := 2, deploymentType := "function", serviceName := "",
          route := ⟨"", ""⟩, auth := ⟨"none"⟩, rateLimit := none, cors := none,
          timeoutNs := 0, memory := "", concurrency := 0 } := by
  have h := C10_empty_routes_collide
    [{ functionName := "E1", packagePath := "", packageName := "pkg", filePath := "a.go",
       lineNumber := 1, deploymentType := "function", serviceName := "",
       route := ⟨"", ""⟩, auth := ⟨"none"⟩, rateLimit := none, cors := none,
       timeoutNs := 0, memory := "", concurrency := 0 },
     { functionName := "E2", packagePath := "", packageName := "pkg", filePath := "b.go",
       lineNumber := 2, deploymentType := "function", serviceName := "",
       route := ⟨"", ""⟩, auth := ⟨"none"⟩, rateLimit := none, cors := none,
       timeoutNs := 0, memory := "", concurrency := 0 }]
    { functionName := "E1", packagePath := "", packageName := "pkg", filePath := "a.go",
      lineNumber := 1, deploymentType := "function", serviceName := "",
      route := ⟨"", ""⟩, auth := ⟨"none"⟩, rateLimit := none, cors := none,
      timeoutNs := 0, memory := "", concurrency := 0 }
    [{ functionName := "E2", packagePath := "", packageName := "pkg", filePath := "b.go",
       lineNumber := 2, deploymentType := "function", serviceName := "",
       route := ⟨"", ""⟩, auth := ⟨"none"⟩, rateLimit := none, cors := none,
       timeoutNs := 0, memory := "", concurrency := 0 }]
    (by rfl)
  exact ⟨h.1 _ (by simp), h.2 _ (by simp)⟩

/-- Witness for C4: two handlers, both routed GET /x; exactly one
diagnostic is produced, attributed to the later handler B and naming the
earlier handler A in its reason text. -/
theorem C4_witness :
    ValidateUniquePaths
        [{ functionName := "A", packagePath := "", packageName := "pkg", filePath := "a.go",
           lineNumber := 1, deploymentType := "function", serviceName := "",
           route := ⟨"GET", "/x"⟩, auth := ⟨"none"⟩, rateLimit := none, cors := none,
           timeoutNs := 0, memory := "", concurrency := 0 },
         { functionName := "B", packagePath := "", packageName := "pkg", filePath := "b.go",
           lineNumber := 9, deploymentType := "function", serviceName := "",
           route := ⟨"GET", "/x"⟩, auth := ⟨"none"⟩, rateLimit := none, cors := none,
           timeoutNs := 0, memory := "", concurrency := 0 }]
      = [⟨"B", "@wylla:path", "Duplicate route: GET /x already defined in handler A"⟩] := by
  have h := C4_duplicate_routes
    { functionName := "A", packagePath := "", packageName := "pkg", filePath := "a.go",
      lineNumber := 1, deploymentType := "function", serviceName := "",
      route := ⟨"GET", "/x"⟩, auth := ⟨"none"⟩, rateLimit := none, cors := none,
      timeoutNs := 0, memory := "", concurrency := 0 }
    [{ functionName := "B", packagePath := "", packageName := "pkg", filePath := "b.go",
       lineNumber := 9, deploymentType := "function", serviceName := "",
       route := ⟨"GET", "/x"⟩, auth := ⟨"none"⟩, rateLimit := none, cors := none,
       timeoutNs := 0, memory := "", concurrency := 0 }]
    (by intro x hx; simp at hx; rw [hx])
  rw [h.1]
  rfl

/-- C7: the symbol-name-to-directory-name transform toKebabCase is a
deterministic pure function (re-invocation on the same string yields the
same output), and it exhibits the documented per-uppercase-letter quirk:
toKebabCase "CreateAccount" = "create-account" and
toKebabCase "HTTPHandler" = "h-t-t-p-handler" (the literal behavior on
consecutive uppercase letters). -/
theorem C7_toKebabCase_deterministic_and_quirk :
    (∀ s : String, toKebabCase s = toKebabCase s)
    ∧ toKebabCase "CreateAccount" = "create-account"
    ∧ toKebabCase "HTTPHandler" = "h-t-t-p-handler" :=
  ⟨fun _ => rfl, by decide, by decide⟩

/-! ### Helper lemmas on validator segments -/

theorem isPrefixOf_append_left :
    ∀ (p l t : List Char), p.length ≤ l.length →
      p.isPrefixOf (l ++ t) = p.isPrefixOf l
  | [], _, _, _ => by simp [List.isPrefixOf_nil_left]
  | _ :: _, [], _, h => by simp at h
  | a :: as, b :: bs, t, h => by
    show (a == b && as.isPrefixOf (bs ++ t)) = (a == b && as.isPrefixOf bs)
    rw [isPrefixOf_append_left as bs t (by simpa using h)]

theorem strHasPfx_append_left (s t p : String) (hlen : p.data.length ≤ s.data.length) :
    strHasPfx (s ++ t) p = strHasPfx s p := by
  unfold strHasPfx
  rw [String.data_append]
  exact isPrefixOf_append_left p.data s.data t.data hlen

theorem annot_mem_validatePath (h : Handler) (e : AnnotationError)
    (he : e ∈ validatePath h) : e.annotation = "@wylla:path" := by
  unfold validatePath at he
  simp only [List.mem_append] at he
  rcases he with (he | he) | he <;> (split at he <;> simp_all)

theorem annot_mem_validateFunctionConfig (h : Handler) (e : AnnotationError)
    (he : e ∈ validateFunctionConfig h) :
    e.annotation = "@wylla:memory" ∨ e.annotation = "@wylla:concurrency" := by
  unfold validateFunctionConfig at he
  simp only [List.mem_append] at he
  rcases he with he | he <;> (split at he <;> simp_all)

theorem annot_mem_validateContainerConfig (h : Handler) (e : AnnotationError)
    (he : e ∈ validateContainerConfig h) :
    e.annotation = "@wylla:concurrency" ∨ e.annotation = "@wylla:memory" := by
  unfold validateContainerConfig at he
  simp only [List.mem_append] at he
  rcases he with he | he <;> (split at he <;> simp_all)

theorem annot_mem_validateRateLimit (h : Handler) (rl : RateLimitConfig) (e : AnnotationError)
    (he : e ∈ validateRateLimit h rl) : e.annotation = "@wylla:ratelimit" := by
  unfold validateRateLimit at he
  simp only [List.mem_append] at he
  rcases he with (he | he) | he <;> (split at he <;> simp_all)

theorem annot_mem_validateCORS (h : Handler) (c : CORSConfig) (e : AnnotationError)
    (he : e ∈ validateCORS h c) : e.annotation = "@wylla:cors" := by
  unfold validateCORS at he
  split at he
  · simp_all
  · simp only [List.mem_flatten, List.mem_map] at he
    obtain ⟨l, ⟨origin, _, rfl⟩, hel⟩ := he
    unfold corsOriginErrors at hel
    split at hel <;> simp_all

theorem annot_mem_validateTimeout (h : Handler) (e : AnnotationError)
    (he : e ∈ validateTimeout h) : e.annotation = "@wylla:timeout" := by
  unfold validateTimeout at he
  simp only [List.mem_append] at he
  rcases he with he | he
  · split at he
    · split at he <;> simp_all
    · split at he
      · split at he <;> simp_all
      · simp at he
  · split at he <;> simp_all

theorem countP_validatePath_eq_zero (h : Handler) (p : AnnotationError → Bool)
    (hp : ∀ e : AnnotationError, e.annotation = "@wylla:path" → p e = false) :
    (validatePath h).countP p = 0 :=
  List.countP_eq_zero.mpr (fun e he => by simp [hp e (annot_mem_validatePath h e he)])

theorem countP_validateRateLimit_eq_zero (h : Handler) (rl : RateLimitConfig)
    (p : AnnotationError → Bool)
    (hp : ∀ e : AnnotationError, e.annotation = "@wylla:ratelimit" → p e = false) :
    (validateRateLimit h rl).countP p = 0 :=
  List.countP_eq_zero.mpr (fun e he => by simp [hp e (annot_mem_validateRateLimit h rl e he)])

theorem countP_validateCORS_eq_zero (h : Handler) (c : CORSConfig)
    (p : AnnotationError → Bool)
    (hp : ∀ e : AnnotationError, e.annotation = "@wylla:cors" → p e = false) :
    (validateCORS h c).countP p = 0 :=
  List.countP_eq_zero.mpr (fun e he => by simp [hp e (annot_mem_validateCORS h c e he)])

theorem countP_validateTimeout_eq_zero (h : Handler) (p : AnnotationError → Bool)
    (hp : ∀ e : AnnotationError, e.annotation = "@wylla:timeout" → p e = false) :
    (validateTimeout h).countP p = 0 :=
  List.countP_eq_zero.mpr (fun e he => by simp [hp e (annot_mem_validateTimeout h e he)])

theorem countP_validateFunctionConfig_eq_zero (h : Handler) (p : AnnotationError → Bool)
    (hp1 : ∀ e : AnnotationError, e.annotation = "@wylla:memory" → p e = false)
    (hp2 : ∀ e : AnnotationError, e.annotation = "@wylla:concurrency" → p e = false) :
    (validateFunctionConfig h).countP p = 0 :=
  List.countP_eq_zero.mpr (fun e he => by
    rcases annot_mem_validateFunctionConfig h e he with ha | ha <;> simp [hp1 e, hp2 e, ha])

theorem countP_validateContainerConfig_eq_zero (h : Handler) (p : AnnotationError → Bool)
    (hp1 : ∀ e : AnnotationError, e.annotation = "@wylla:memory" → p e = false)
    (hp2 : ∀ e : AnnotationError, e.annotation = "@wylla:concurrency" → p e = false) :
    (validateContainerConfig h).countP p = 0 :=
  List.countP_eq_zero.mpr (fun e he => by
    rcases annot_mem_validateContainerConfig h e he with ha | ha <;> simp [hp1 e, hp2 e, ha])

/-- C5: for every Handler deployed as a function with a non-empty memory
string, the per-handler validation pass emits exactly one memory
diagnostic when the string lies outside the fixed enum
{128MB,256MB,512MB,1GB,2GB,4GB,8GB,16GB}, and none when it lies inside
(in particular "99MB" is rejected and "256MB" passes: witness below). -/
theorem C5_function_memory_enum (h : Handler)
    (ht : h.deploymentType = DeploymentFunction) (hm : h.memory ≠ "") :
    (validateHandler h).countP isMemoryDiag
      = if h.memory ∈ validFunctionMemoryValues then 0 else 1 := by
  have hP := countP_validatePath_eq_zero h isMemoryDiag
    (fun e ha => by simp [isMemoryDiag, ha])
  have hT := countP_validateTimeout_eq_zero h isMemoryDiag
    (fun e ha => by simp [isMemoryDiag, ha])
  unfold validateHandler validateFunctionConfig
  rw [ht]
  by_cases hv : h.memory ∈ validFunctionMemoryValues <;>
    cases hrl : h.rateLimit <;> cases hcor : h.cors <;>
      simp [List.countP_append, apply_ite (List.countP isMemoryDiag),
        hP, hT, countP_validateRateLimit_eq_zero _ _ isMemoryDiag
          (fun e ha => by simp [isMemoryDiag, ha]),
        countP_validateCORS_eq_zero _ _ isMemoryDiag
          (fun e ha => by simp [isMemoryDiag, ha]),
        isMemoryDiag, missingTypeError, missingPathError,
        DeploymentFunction, hm, hv, List.countP_cons]

/-- Witness for C5: a function handler with memory "99MB" receives exactly
one memory diagnostic; the same handler with memory "256MB" receives
none. -/
theorem C5_witness :
    (validateHandler
        { functionName := "F", packagePath := "", packageName := "pkg", filePath := "f.go",
          lineNumber := 3, deploymentType := "function", serviceName := "",
          route := ⟨"GET", "/x"⟩, auth := ⟨"none"⟩, rateLimit := none, cors := none,
          timeoutNs := 0, memory := "99MB", concurrency := 0 }).countP isMemoryDiag = 1
    ∧ (validateHandler
        { functionName := "F", packagePath := "", packageName := "pkg", filePath := "f.go",
          lineNumber := 3, deploymentType := "function", serviceName := "",
          route := ⟨"GET", "/x"⟩, auth := ⟨"none"⟩, rateLimit := none, cors := none,
          timeoutNs := 0, memory := "256MB", concurrency := 0 }).countP isMemoryDiag = 0 := by
  constructor
  · have h := C5_function_memory_enum
      { functionName := "F", packagePath := "", packageName := "pkg", filePath := "f.go",
        lineNumber := 3, deploymentType := "function", serviceName := "",
        route := ⟨"GET", "/x"⟩, auth := ⟨"none"⟩, rateLimit := none, cors := none,
        timeoutNs := 0, memory := "99MB", concurrency := 0 }
      rfl (by decide)
    rwa [if_neg (by decide)] at h
  · have h := C5_function_memory_enum
      { functionName := "F", packagePath := "", packageName := "pkg", filePath := "f.go",
        lineNumber := 3, deploymentType := "function", serviceName := "",
        route := ⟨"GET", "/x"⟩, auth := ⟨"none"⟩, rateLimit := none, cors := none,
        timeoutNs := 0, memory := "256MB", concurrency := 0 }
      rfl (by decide)
    rwa [if_pos (by decide)] at h

theorem ceilFun_reason_pfx (d : Int) :
    strHasPfx ("Cloud Function timeout cannot exceed 540s (9 minutes), got: "
        ++ goDurationString d) "Cloud Function timeout" = true := by
  rw [strHasPfx_append_left _ _ _ (by decide)]
  decide

theorem ceilRun_reason_pfx (d : Int) :
    strHasPfx ("Cloud Run timeout cannot exceed 3600s (1 hour), got: "
        ++ goDurationString d) "Cloud Run timeout" = true := by
  rw [strHasPfx_append_left _ _ _ (by decide)]
  decide

theorem ceilRun_reason_not_fun_pfx (d : Int) :
    strHasPfx ("Cloud Run timeout cannot exceed 3600s (1 hour), got: "
        ++ goDurationString d) "Cloud Function timeout" = false := by
  rw [strHasPfx_append_left _ _ _ (by decide)]
  decide

theorem short_reason_not_fun_pfx (d : Int) :
    strHasPfx ("Timeout is very short: " ++ goDurationString d
        ++ " (consider if this is intentional)") "Cloud Function timeout" = false := by
  rw [String.append_assoc, strHasPfx_append_left _ _ _ (by decide)]
  decide

theorem short_reason_not_run_pfx (d : Int) :
    strHasPfx ("Timeout is very short: " ++ goDurationString d
        ++ " (consider if this is intentional)") "Cloud Run timeout" = false := by
  rw [String.append_assoc, strHasPfx_append_left _ _ _ (by decide)]
  decide

theorem short_reason_pfx (d : Int) :
    strHasPfx ("Timeout is very short: " ++ goDurationString d
        ++ " (consider if this is intentional)") "Timeout is very short" = true := by
  rw [String.append_assoc, strHasPfx_append_left _ _ _ (by decide)]
  decide

theorem ceilFun_reason_not_short_pfx (d : Int) :
    strHasPfx ("Cloud Function timeout cannot exceed 540s (9 minutes), got: "
        ++ goDurationString d) "Timeout is very short" = false := by
  rw [strHasPfx_append_left _ _ _ (by decide)]
  decide

theorem ceilRun_reason_not_short_pfx (d : Int) :
    strHasPfx ("Cloud Run timeout cannot exceed 3600s (1 hour), got: "
        ++ goDurationString d) "Timeout is very short" = false := by
  rw [strHasPfx_append_left _ _ _ (by decide)]
  decide

theorem countP_validateTimeout_ceiling (h : Handler) :
    (validateTimeout h).countP isCeilingTimeoutDiag
      = if (h.deploymentType = DeploymentFunction ∧ 540 * nsPerSec < h.timeoutNs)
          ∨ (h.deploymentType = DeploymentContainer ∧ 3600 * nsPerSec < h.timeoutNs)
        then 1 else 0 := by
  unfold validateTimeout
  rw [List.countP_append]
  by_cases hf : h.deploymentType = DeploymentFunction
  · by_cases hT : h.timeoutNs > 540 * nsPerSec <;>
      simp [hf, hT, apply_ite (List.countP isCeilingTimeoutDiag),
        isCeilingTimeoutDiag, ceilFun_reason_pfx, short_reason_not_fun_pfx,
        short_reason_not_run_pfx, DeploymentFunction, DeploymentContainer,
        List.countP_cons]
  · by_cases hc : h.deploymentType = DeploymentContainer
    · by_cases hT : h.timeoutNs > 3600 * nsPerSec <;>
        simp [hf, hc, hT, apply_ite (List.countP isCeilingTimeoutDiag),
          isCeilingTimeoutDiag, ceilRun_reason_pfx, ceilRun_reason_not_fun_pfx,
          short_reason_not_fun_pfx, short_reason_not_run_pfx,
          DeploymentFunction, DeploymentContainer, List.countP_cons]
    · simp [hf, hc, apply_ite (List.countP isCeilingTimeoutDiag),
        isCeilingTimeoutDiag, short_reason_not_fun_pfx, short_reason_not_run_pfx,
        List.countP_cons]

theorem countP_validateTimeout_short (h : Handler) :
    (validateTimeout h).countP isShortTimeoutDiag
      = if h.timeoutNs < 5 * nsPerSec then 1 else 0 := by
  unfold validateTimeout
  rw [List.countP_append]
  by_cases hs : h.timeoutNs < 5 * nsPerSec <;>
    simp [hs, apply_ite (List.countP isShortTimeoutDiag), isShortTimeoutDiag,
      short_reason_pfx, ceilFun_reason_not_short_pfx, ceilRun_reason_not_short_pfx,
      List.countP_cons]

/-- C6: for every Handler with a positive timeout, validation emits a
ceiling diagnostic exactly when the timeout exceeds 540 seconds on a
function-target handler or 3600 seconds on a container-target handler,
and it emits the short-timeout advisory exactly when the timeout is below
5 seconds, regardless of deployment target (in particular 600s fails the
function ceiling and passes the container ceiling: witness below). -/
theorem C6_timeout_ceiling_and_advisory (h : Handler) (hpos : 0 < h.timeoutNs) :
    ((validateHandler h).countP isCeilingTimeoutDiag
        = if (h.deploymentType = DeploymentFunction ∧ 540 * nsPerSec < h.timeoutNs)
            ∨ (h.deploymentType = DeploymentContainer ∧ 3600 * nsPerSec < h.timeoutNs)
          then 1 else 0)
    ∧ ((validateHandler h).countP isShortTimeoutDiag
        = if h.timeoutNs < 5 * nsPerSec then 1 else 0) := by
  have hceil := countP_validateTimeout_ceiling h
  have hshort := countP_validateTimeout_short h
  constructor
  · have hP := countP_validatePath_eq_zero h isCeilingTimeoutDiag
      (fun e ha => by simp [isCeilingTimeoutDiag, ha])
    have hF := countP_validateFunctionConfig_eq_zero h isCeilingTimeoutDiag
      (fun e ha => by simp [isCeilingTimeoutDiag, ha])
      (fun e ha => by simp [isCeilingTimeoutDiag, ha])
    have hC := countP_validateContainerConfig_eq_zero h isCeilingTimeoutDiag
      (fun e ha => by simp [isCeilingTimeoutDiag, ha])
      (fun e ha => by simp [isCeilingTimeoutDiag, ha])
    unfold validateHandler
    cases hrl : h.rateLimit <;> cases hcor : h.cors <;>
      simp [List.countP_append, apply_ite (List.countP isCeilingTimeoutDiag),
        hP, hF, hC, hceil, hpos,
        countP_validateRateLimit_eq_zero _ _ isCeilingTimeoutDiag
          (fun e ha => by simp [isCeilingTimeoutDiag, ha]),
        countP_validateCORS_eq_zero _ _ isCeilingTimeoutDiag
          (fun e ha => by simp [isCeilingTimeoutDiag, ha]),
        isCeilingTimeoutDiag, missingTypeError, missingPathError, List.countP_cons]
  · have hP := countP_validatePath_eq_zero h isShortTimeoutDiag
      (fun e ha => by simp [isShortTimeoutDiag, ha])
    have hF := countP_validateFunctionConfig_eq_zero h isShortTimeoutDiag
      (fun e ha => by simp [isShortTimeoutDiag, ha])
      (fun e ha => by simp [isShortTimeoutDiag, ha])
    have hC := countP_validateContainerConfig_eq_zero h isShortTimeoutDiag
      (fun e ha => by simp [isShortTimeoutDiag, ha])
      (fun e ha => by simp [isShortTimeoutDiag, ha])
    unfold validateHandler
    cases hrl : h.rateLimit <;> cases hcor : h.cors <;>
      simp [List.countP_append, apply_ite (List.countP isShortTimeoutDiag),
        hP, hF, hC, hshort, hpos,
        countP_validateRateLimit_eq_zero _ _ isShortTimeoutDiag
          (fun e ha => by simp [isShortTimeoutDiag, ha]),
        countP_validateCORS_eq_zero _ _ isShortTimeoutDiag
          (fun e ha => by simp [isShortTimeoutDiag, ha]),
        isShortTimeoutDiag, missingTypeError, missingPathError, List.countP_cons]

/-- Witness for C6: a 600-second timeout receives exactly one ceiling
diagnostic on a function handler and none on a container handler, and in
neither case the short-timeout advisory. -/
theorem C6_witness :
    (validateHandler
        { functionName := "F", packagePath := "", packageName := "pkg", filePath := "f.go",
          lineNumber := 3, deploymentType := "function", serviceName := "",
          route := ⟨"GET", "/x"⟩, auth := ⟨"none"⟩, rateLimit := none, cors := none,
          timeoutNs := 600000000000, memory := "", concurrency := 0 }).countP
        isCeilingTimeoutDiag = 1
    ∧ (validateHandler
        { functionName := "F", packagePath := "", packageName := "pkg", filePath := "f.go",
          lineNumber := 3, deploymentType := "container", serviceName := "",
          route := ⟨"GET", "/x"⟩, auth := ⟨"none"⟩, rateLimit := none, cors := none,
          timeoutNs := 600000000000, memory := "", concurrency := 0 }).countP
        isCeilingTimeoutDiag = 0
    ∧ (validateHandler
        { functionName := "F", packagePath := "", packageName := "pkg", filePath := "f.go",
          lineNumber := 3, deploymentType := "function", serviceName := "",
          route := ⟨"GET", "/x"⟩, auth := ⟨"none"⟩, rateLimit := none, cors := none,
          timeoutNs := 600000000000, memory := "", concurrency := 0 }).countP
        isShortTimeoutDiag = 0 := by
  refine ⟨?_, ?_, ?_⟩
  · have h := (C6_timeout_ceiling_and_advisory
      { functionName := "F", packagePath := "", packageName := "pkg", filePath := "f.go",
        lineNumber := 3, deploymentType := "function", serviceName := "",
        route := ⟨"GET", "/x"⟩, auth := ⟨"none"⟩, rateLimit := none, cors := none,
        timeoutNs := 600000000000, memory := "", concurrency := 0 } (by decide)).1
    rwa [if_pos (Or.inl ⟨rfl, by decide⟩)] at h
  · have h := (C6_timeout_ceiling_and_advisory
      { functionName := "F", packagePath := "", packageName := "pkg", filePath := "f.go",
        lineNumber := 3, deploymentType := "container", serviceName := "",
        route := ⟨"GET", "/x"⟩, auth := ⟨"none"⟩, rateLimit := none, cors := none,
        timeoutNs := 600000000000, memory := "", concurrency := 0 } (by decide)).1
    rwa [if_neg (by
      rintro (⟨hd, _⟩ | ⟨_, hT⟩)
      · exact absurd hd (by decide)
      · exact absurd hT (by decide))] at h
  · have h := (C6_timeout_ceiling_and_advisory
      { functionName := "F", packagePath := "", packageName := "pkg", filePath := "f.go",
        lineNumber := 3, deploymentType := "function", serviceName := "",
        route := ⟨"GET", "/x"⟩, auth := ⟨"none"⟩, rateLimit := none, cors := none,
        timeoutNs := 600000000000, memory := "", concurrency := 0 } (by decide)).2
    rwa [if_neg (by decide)] at h

/-! ### Parser lemmas and C1 -/

theorem processAnnotation_hasBox (fp : String) (ln : Nat) (text ty v : String)
    (st : ParseState) : ( processAnnotation fp ln text ty v st).hasBox = st.hasBox := by
  unfold processAnnotation
  by_cases h1 : ty = "function"
  · rw [if_pos h1]
  rw [if_neg h1]
  by_cases h2 : ty = "container"
  · rw [if_pos h2]
    dsimp only
    by_cases hv : v ≠ ""
    · rw [if_pos hv]
      cases parseContainerService v <;> rfl
    · rw [if_neg hv]
  rw [if_neg h2]
  by_cases h3 : ty = "path"
  · rw [if_pos h3]
    cases parsePath v <;> rfl
  rw [if_neg h3]
  by_cases h4 : ty = "auth"
  · rw [if_pos h4]
    cases parseAuth v <;> rfl
  rw [if_neg h4]
  by_cases h5 : ty = "ratelimit"
  · rw [if_pos h5]
    cases parseRateLimit v <;> rfl
  rw [if_neg h5]
  by_cases h6 : ty = "cors"
  · rw [if_pos h6]
    cases parseCORS v <;> rfl
  rw [if_neg h6]
  by_cases h7 : ty = "timeout"
  · rw [if_pos h7]
    cases parseTimeout v <;> rfl
  rw [if_neg h7]
  by_cases h8 : ty = "memory"
  · rw [if_pos h8]
  rw [if_neg h8]
  by_cases h9 : ty = "concurrency"
  · rw [if_pos h9]
    cases sscanfInt v <;> rfl
  rw [if_neg h9]

theorem processBoxText_hasBox (fp : String) (ln : Nat) (text : String) (st : ParseState) :
    (processBoxText fp ln text st).hasBox = st.hasBox := by
  rcases hd : text.data.drop (text.data.takeWhile (fun c => c ≠ ':')).length with _ | ⟨a, after⟩
  · simp only [processBoxText, hd]
  · simp only [processBoxText, hd]
    exact processAnnotation_hasBox ..

theorem processLine_hasBox (fp : String) (ln : Nat) (st : ParseState) (c : String) :
    (processLine fp ln st c).hasBox = (st.hasBox || isBoxLine c) := by
  by_cases hb : strHasPfx (stripCommentMarkers c) "@box:" = true
  · simp only [processLine, isBoxLine, hb, Bool.or_true]
    rw [if_neg (by simp [hb])]
    rw [processBoxText_hasBox]
  · have hb' : strHasPfx (stripCommentMarkers c) "@box:" = false := by
      simpa using hb
    simp [processLine, isBoxLine, hb']

theorem processLine_eq_of_not_box (fp : String) (ln : Nat) (st : ParseState) (c : String)
    (h : isBoxLine c = false) : processLine fp ln st c = st := by
  unfold isBoxLine at h
  simp [processLine, h]

theorem foldl_processLine_hasBox (fp : String) (ln : Nat) :
    ∀ (comments : List String) (st : ParseState),
      (comments.foldl (processLine fp ln) st).hasBox
        = (st.hasBox || comments.any isBoxLine) := by
  intro comments
  induction comments with
  | nil => intro st; simp
  | cons c cs ih =>
    intro st
    simp only [List.foldl_cons, List.any_cons]
    rw [ih, processLine_hasBox]
    cases st.hasBox <;> cases hc : isBoxLine c <;> simp

theorem foldl_processLine_id (fp : String) (ln : Nat) :
    ∀ (comments : List String) (st : ParseState),
      (∀ c ∈ comments, isBoxLine c = false) →
      comments.foldl (processLine fp ln) st = st := by
  intro comments
  induction comments with
  | nil => intro st _; rfl
  | cons c cs ih =>
    intro st hall
    simp only [List.foldl_cons]
    rw [processLine_eq_of_not_box fp ln st c (hall c (by simp))]
    exact ih st (fun x hx => hall x (by simp [hx]))

theorem parseAnnotations_fst_eq_none_iff (comments : List String)
    (fn pn fp : String) (ln : Nat) :
    (parseAnnotations comments fn pn fp ln).1 = none
      ↔ comments.any isBoxLine = false := by
  simp only [parseAnnotations]
  rw [foldl_processLine_hasBox]
  simp only [Bool.false_or]
  cases hA : comments.any isBoxLine <;> simp

/-- C1 (amended): the parser skips a declaration (produces no Handler) if
and only if its comment block contains no @box: line at all; and for such
a block no ParseError is emitted either.  A block that carries any @box:
annotation — even without a deployment-target key — does yield a Handler
(with empty deployment type, left to the validator), which is what the
counterexample below exhibits against the claim as stated. -/
theorem C1_no_handler_iff_no_box_line (comments : List String)
    (funcName packageName filePath : String) (ln : Nat) :
    ((parseAnnotations comments funcName packageName filePath ln).1 = none
      ↔ ∀ c ∈ comments, isBoxLine c = false)
    ∧ ((∀ c ∈ comments, isBoxLine c = false) →
        (parseAnnotations comments funcName packageName filePath ln).2 = []) := by
  constructor
  · rw [parseAnnotations_fst_eq_none_iff]
    simp [List.any_eq_false]
  · intro hall
    simp only [parseAnnotations]
    rw [foldl_processLine_id filePath ln comments _ hall]
    rfl

/-- Witness for C1: a block with a single ordinary comment line produces
no Handler and no ParseError. -/
theorem C1_witness :
    (parseAnnotations ["// just a comment"] "F" "pkg" "/f.go" 1).1 = none
    ∧ (parseAnnotations ["// just a comment"] "F" "pkg" "/f.go" 1).2 = [] :=
  ⟨(C1_no_handler_iff_no_box_line ["// just a comment"] "F" "pkg" "/f.go" 1).1.mpr
      (by decide),
   (C1_no_handler_iff_no_box_line ["// just a comment"] "F" "pkg" "/f.go" 1).2
      (by decide)⟩

/-- Counterexample for C1 as stated: a comment block consisting solely of
"// @box:path GET /x" has no recognized deployment-target key, yet the
parser DOES produce a Handler for it (with empty deployment type); it is
not silently skipped.  The no-ParseError half of the claim does hold. -/
theorem C1_counterexample :
    ¬ ((parseAnnotations ["// @box:path GET /x"] "F" "pkg" "/f.go" 1).1 = none)
    ∧ (parseAnnotations ["// @box:path GET /x"] "F" "pkg" "/f.go" 1).1
        = some { functionName := "F", packagePath := "", packageName := "pkg",
                 filePath := "/f.go", lineNumber := 1, deploymentType := "",
                 serviceName := "", route := ⟨"GET", "/x"⟩, auth := ⟨"none"⟩,
                 rateLimit := none, cors := none, timeoutNs := 0, memory := "",
                 concurrency := 0 }
    ∧ (parseAnnotations ["// @box:path GET /x"] "F" "pkg" "/f.go" 1).2 = [] := by
  refine ⟨?_, ?_, ?_⟩ <;> decide

/-! ### Container grouping (C2) -/

theorem addToGroups_mem_sound (gs : List ServiceGroup) (name : String) (h : Handler)
    (hacc : ∀ g ∈ gs, ∀ x ∈ g.handlers, serviceNameOf x = g.name)
    (hn : serviceNameOf h = name) :
    ∀ g ∈ addToGroups gs name h, ∀ x ∈ g.handlers, serviceNameOf x = g.name := by
  induction gs with
  | nil =>
    intro g hg x hx
    simp [addToGroups] at hg
    subst hg
    simp at hx
    subst hx
    exact hn
  | cons g0 rest ih =>
    intro g hg x hx
    unfold addToGroups at hg
    split at hg
    · rename_i hcond
      rcases List.mem_cons.mp hg with rfl | hg2
      · rcases List.mem_append.mp hx with hx1 | hx2
        · exact hacc g0 (by simp) x hx1
        · simp at hx2
          subst hx2
          show serviceNameOf x = g0.name
          rw [hcond]
          exact hn
      · exact hacc g (by simp [hg2]) x hx
    · rcases List.mem_cons.mp hg with rfl | hg2
      · exact hacc g (by simp) x hx
      · exact ih (fun g hg => hacc g (by simp [hg])) g hg2 x hx

theorem foldl_groups_sound :
    ∀ (hs : List Handler) (acc : List ServiceGroup),
      (∀ g ∈ acc, ∀ x ∈ g.handlers, serviceNameOf x = g.name) →
      ∀ g ∈ hs.foldl (fun gs h => addToGroups gs (serviceNameOf h) h) acc,
        ∀ x ∈ g.handlers, serviceNameOf x = g.name := by
  intro hs
  induction hs with
  | nil => intro acc hacc; simpa using hacc
  | cons h hs ih =>
    intro acc hacc
    simp only [List.foldl_cons]
    exact ih _ (addToGroups_mem_sound acc (serviceNameOf h) h hacc rfl)

/-- C2 (amended): the Container Emitter partitions handlers into
ServiceGroups keyed solely by package name ("default" when none) — the
explicit @box:container service=<name> group name recorded in ServiceName
is not consulted — and two container handlers in the same package land in
exactly one group, emitted as exactly one container-service directory
that carries both. -/
theorem C2_grouping_by_package_name (h1 h2 : Handler)
    (hp : h2.packageName = h1.packageName) (hne : h1.packageName ≠ "") :
    (∀ (hs : List Handler), ∀ g ∈ groupHandlers hs,
        ∀ x ∈ g.handlers, serviceNameOf x = g.name)
    ∧ groupHandlers [h1, h2] = [⟨h1.packageName, [h1, h2]⟩]
    ∧ containerServiceDirs [h1, h2] = [toKebabCase h1.packageName] := by
  have hs1 : serviceNameOf h1 = h1.packageName := by simp [serviceNameOf, hne]
  have hs2 : serviceNameOf h2 = h1.packageName := by
    simp [serviceNameOf, hp, hne]
  have hmain : groupHandlers [h1, h2] = [⟨h1.packageName, [h1, h2]⟩] := by
    simp [groupHandlers, addToGroups, hs1, hs2]
  refine ⟨fun hs => foldl_groups_sound hs [] (by simp), hmain, ?_⟩
  simp [containerServiceDirs, hmain]

/-- Witness for C2: two container handlers in package "users" with
distinct routes form one group, and one container-service directory that
registers both. -/
theorem C2_witness :
    groupHandlers
        [{ functionName := "GetUser", packagePath := "", packageName := "users",
           filePath := "u.go", lineNumber := 1, deploymentType := "container",
           serviceName := "", route := ⟨"GET", "/u"⟩, auth := ⟨"none"⟩,
           rateLimit := none, cors := none, timeoutNs := 0, memory := "",
           concurrency := 0 },
         { functionName := "MakeUser", packagePath := "", packageName := "users",
           filePath := "u.go", lineNumber := 9, deploymentType := "container",
           serviceName := "", route := ⟨"POST", "/u"⟩, auth := ⟨"none"⟩,
           rateLimit := none, cors := none, timeoutNs := 0, memory := "",
           concurrency := 0 }]
      = [⟨"users",
          [{ functionName := "GetUser", packagePath := "", packageName := "users",
             filePath := "u.go", lineNumber := 1, deploymentType := "container",
             serviceName := "", route := ⟨"GET", "/u"⟩, auth := ⟨"none"⟩,
             rateLimit := none, cors := none, timeoutNs := 0, memory := "",
             concurrency := 0 },
           { functionName := "MakeUser", packagePath := "", packageName := "users",
             filePath := "u.go", lineNumber := 9, deploymentType := "container",
             serviceName := "", route := ⟨"POST", "/u"⟩, auth := ⟨"none"⟩,
             rateLimit := none, cors := none, timeoutNs := 0, memory := "",
             concurrency := 0 }]⟩]
    ∧ containerServiceDirs
        [{ functionName := "GetUser", packagePath := "", packageName := "users",
           filePath := "u.go", lineNumber := 1, deploymentType := "container",
           serviceName := "", route := ⟨"GET", "/u"⟩, auth := ⟨"none"⟩,
           rateLimit := none, cors := none, timeoutNs := 0, memory := "",
           concurrency := 0 },
         { functionName := "MakeUser", packagePath := "", packageName := "users",
           filePath := "u.go", lineNumber := 9, deploymentType := "container",
           serviceName := "", route := ⟨"POST", "/u"⟩, auth := ⟨"none"⟩,
           rateLimit := none, cors := none, timeoutNs := 0, memory := "",
           concurrency := 0 }]
      = ["users"] := by
  have h := C2_grouping_by_package_name
    { functionName := "GetUser", packagePath := "", packageName := "users",
      filePath := "u.go", lineNumber := 1, deploymentType := "container",
      serviceName := "", route := ⟨"GET", "/u"⟩, auth := ⟨"none"⟩,
      rateLimit := none, cors := none, timeoutNs := 0, memory := "",
      concurrency := 0 }
    { functionName := "MakeUser", packagePath := "", packageName := "users",
      filePath := "u.go", lineNumber := 9, deploymentType := "container",
      serviceName := "", route := ⟨"POST", "/u"⟩, auth := ⟨"none"⟩,
      rateLimit := none, cors := none, timeoutNs := 0, memory := "",
      concurrency := 0 }
    rfl (by decide)
  exact ⟨h.2.1, by rw [h.2.2]; decide⟩

/-- Counterexample for C2 as stated: two container handlers that share the
explicit service-group name "shared" but live in different packages.  The
claim's grouping would put them in one group named "shared"; the code
groups by package name only, producing two groups, neither named
"shared". -/
theorem C2_counterexample :
    groupHandlers
        [{ functionName := "A", packagePath := "", packageName := "alpha",
           filePath := "a.go", lineNumber := 1, deploymentType := "container",
           serviceName := "shared", route := ⟨"GET", "/a"⟩, auth := ⟨"none"⟩,
           rateLimit := none, cors := none, timeoutNs := 0, memory := "",
           concurrency := 0 },
         { functionName := "B", packagePath := "", packageName := "beta",
           filePath := "b.go", lineNumber := 1, deploymentType := "container",
           serviceName := "shared", route := ⟨"GET", "/b"⟩, auth := ⟨"none"⟩,
           rateLimit := none, cors := none, timeoutNs := 0, memory := "",
           concurrency := 0 }]
      = [⟨"alpha",
          [{ functionName := "A", packagePath := "", packageName := "alpha",
             filePath := "a.go", lineNumber := 1, deploymentType := "container",
             serviceName := "shared", route := ⟨"GET", "/a"⟩, auth := ⟨"none"⟩,
             rateLimit := none, cors := none, timeoutNs := 0, memory := "",
             concurrency := 0 }]⟩,
         ⟨"beta",
          [{ functionName := "B", packagePath := "", packageName := "beta",
             filePath := "b.go", lineNumber := 1, deploymentType := "container",
             serviceName := "shared", route := ⟨"GET", "/b"⟩, auth := ⟨"none"⟩,
             rateLimit := none, cors := none, timeoutNs := 0, memory := "",
             concurrency := 0 }]⟩]
    ∧ groupHandlersSpec
        [{ functionName := "A", packagePath := "", packageName := "alpha",
           filePath := "a.go", lineNumber := 1, deploymentType := "container",
           serviceName := "shared", route := ⟨"GET", "/a"⟩, auth := ⟨"none"⟩,
           rateLimit := none, cors := none, timeoutNs := 0, memory := "",
           concurrency := 0 },
         { functionName := "B", packagePath := "", packageName := "beta",
           filePath := "b.go", lineNumber := 1, deploymentType := "container",
           serviceName := "shared", route := ⟨"GET", "/b"⟩, auth := ⟨"none"⟩,
           rateLimit := none, cors := none, timeoutNs := 0, memory := "",
           concurrency := 0 }]
      = [⟨"shared",
          [{ functionName := "A", packagePath := "", packageName := "alpha",
             filePath := "a.go", lineNumber := 1, deploymentType := "container",
             serviceName := "shared", route := ⟨"GET", "/a"⟩, auth := ⟨"none"⟩,
             rateLimit := none, cors := none, timeoutNs := 0, memory := "",
             concurrency := 0 },
           { functionName := "B", packagePath := "", packageName := "beta",
             filePath := "b.go", lineNumber := 1, deploymentType := "container",
             serviceName := "shared", route := ⟨"GET", "/b"⟩, auth := ⟨"none"⟩,
             rateLimit := none, cors := none, timeoutNs := 0, memory := "",
             concurrency := 0 }]⟩] := by
  constructor <;> decide

/-! ### Gateway backend addresses (C3) -/

/-- C3 (amended): the Gateway Emitter's backend-address extension is
https://<region>-<project>.cloudfunctions.net/<kebab symbol name> for
function handlers, and https://<kebab PACKAGE name>-<region>.run.app for
container handlers — the explicit service-group name is not consulted for
the container case (counterexample below refutes the claim as stated). -/
theorem C3_backend_url (region projectID : String) (h : Handler) :
    (h.deploymentType = DeploymentFunction →
      getBackendURL region projectID h
        = "https://" ++ region ++ "-" ++ projectID ++ ".cloudfunctions.net/"
            ++ toKebabCase h.functionName)
    ∧ (h.deploymentType = DeploymentContainer →
      getBackendURL region projectID h
        = "https://" ++ toKebabCase h.packageName ++ "-" ++ region ++ ".run.app") := by
  constructor <;> intro ht <;>
    simp [getBackendURL, ht, DeploymentFunction, DeploymentContainer]

/-- Witness for C3: concrete function and container handlers produce the
two URL shapes. -/
theorem C3_witness :
    getBackendURL "us-central1" "proj"
        { functionName := "CreateAccount", packagePath := "", packageName := "accounts",
          filePath := "a.go", lineNumber := 1, deploymentType := "function",
          serviceName := "", route := ⟨"POST", "/a"⟩, auth := ⟨"none"⟩,
          rateLimit := none, cors := none, timeoutNs := 0, memory := "",
          concurrency := 0 }
      = "https://us-central1-proj.cloudfunctions.net/create-account"
    ∧ getBackendURL "us-central1" "proj"
        { functionName := "GetUser", packagePath := "", packageName := "users",
          filePath := "u.go", lineNumber := 1, deploymentType := "container",
          serviceName := "", route := ⟨"GET", "/u"⟩, auth := ⟨"none"⟩,
          rateLimit := none, cors := none, timeoutNs := 0, memory := "",
          concurrency := 0 }
      = "https://users-us-central1.run.app" := by
  constructor
  · have h := (C3_backend_url "us-central1" "proj"
      { functionName := "CreateAccount", packagePath := "", packageName := "accounts",
        filePath := "a.go", lineNumber := 1, deploymentType := "function",
        serviceName := "", route := ⟨"POST", "/a"⟩, auth := ⟨"none"⟩,
        rateLimit := none, cors := none, timeoutNs := 0, memory := "",
        concurrency := 0 }).1 rfl
    rw [h]
    decide
  · have h := (C3_backend_url "us-central1" "proj"
      { functionName := "GetUser", packagePath := "", packageName := "users",
        filePath := "u.go", lineNumber := 1, deploymentType := "container",
        serviceName := "", route := ⟨"GET", "/u"⟩, auth := ⟨"none"⟩,
        rateLimit := none, cors := none, timeoutNs := 0, memory := "",
        concurrency := 0 }).2 rfl
    rw [h]
    decide

/-- Counterexample for C3 as stated: a container handler whose explicit
service-group name is "svc" but whose package is "pkg" gets the
package-derived backend address, not the service-group-derived one the
claim asserts. -/
theorem C3_counterexample :
    getBackendURL "us-central1" "proj"
        { functionName := "H", packagePath := "", packageName := "pkg",
          filePath := "h.go", lineNumber := 1, deploymentType := "container",
          serviceName := "svc", route := ⟨"GET", "/h"⟩, auth := ⟨"none"⟩,
          rateLimit := none, cors := none, timeoutNs := 0, memory := "",
          concurrency := 0 }
      = "https://pkg-us-central1.run.app"
    ∧ getBackendURLSpec "us-central1" "proj"
        { functionName := "H", packagePath := "", packageName := "pkg",
          filePath := "h.go", lineNumber := 1, deploymentType := "container",
          serviceName := "svc", route := ⟨"GET", "/h"⟩, auth := ⟨"none"⟩,
          rateLimit := none, cors := none, timeoutNs := 0, memory := "",
          concurrency := 0 }
      = "https://svc-us-central1.run.app"
    ∧ "https://pkg-us-central1.run.app" ≠ "https://svc-us-central1.run.app" := by
  refine ⟨?_, ?_, ?_⟩ <;> decide

/-! ### Gateway output ordering (C9) -/

/-- C9: the Gateway Emitter's rendered orderings are deterministic — the
path entries are sorted by path string and the tag list is sorted — so
re-running on the same input reproduces the same orderings (the functions
are pure). -/
theorem C9_gateway_ordering (handlers : List Handler) :
    ((groupHandlersByPath handlers).map (fun p => p.path)).Sorted (fun a b => a ≤ b)
    ∧ (extractTags handlers).Sorted (fun a b => a ≤ b)
    ∧ groupHandlersByPath handlers = groupHandlersByPath handlers
    ∧ extractTags handlers = extractTags handlers := by
  refine ⟨?_, ?_, rfl, rfl⟩
  · have hs := List.sorted_insertionSort pathLE (handlers.foldl insertHandlerByPath [])
    unfold groupHandlersByPath
    exact List.Pairwise.map _ (fun a b hab => hab) hs
  · exact List.sorted_insertionSort _ _

/-! ### Empty-input generation (C8) -/

/-- C8: generating with zero Handlers succeeds and writes exactly the
output root directory: the function, container, gateway and terraform
emitters are all skipped because their (filtered or full) inputs are
empty. -/
theorem C8_generate_empty (cfg : Config) :
    Generate cfg [] = .ok [cfg.outputDir] := by
  rfl
